import Mathlib

/-!
Shallow embedding of the numeric core of `calculadora-aporte`
(`src/lib/finance.ts`).  JavaScript numbers are modelled as exact
rationals extended with positive infinity, negative infinity and NaN
(`JNum`); finite arithmetic is exact (no overflow), while division by
zero produces the IEEE-style non-finite values that the source's
`Number.isFinite` checks branch on.
-/

/-- A JavaScript number: a finite (exact rational) value, an infinity,
or NaN. -/
inductive JNum where
  | fin : ℚ → JNum
  | posInf : JNum
  | negInf : JNum
  | nan : JNum
deriving DecidableEq

/-- JavaScript addition on `JNum`. -/
def jadd : JNum → JNum → JNum
  | JNum.nan, _ => JNum.nan
  | _, JNum.nan => JNum.nan
  | JNum.fin a, JNum.fin b => JNum.fin (a + b)
  | JNum.posInf, JNum.negInf => JNum.nan
  | JNum.negInf, JNum.posInf => JNum.nan
  | JNum.posInf, _ => JNum.posInf
  | _, JNum.posInf => JNum.posInf
  | JNum.negInf, _ => JNum.negInf
  | _, JNum.negInf => JNum.negInf

/-- JavaScript multiplication on `JNum`. -/
def jmul : JNum → JNum → JNum
  | JNum.nan, _ => JNum.nan
  | _, JNum.nan => JNum.nan
  | JNum.fin a, JNum.fin b => JNum.fin (a * b)
  | JNum.posInf, JNum.fin b =>
      if b = 0 then JNum.nan else if 0 < b then JNum.posInf else JNum.negInf
  | JNum.fin a, JNum.posInf =>
      if a = 0 then JNum.nan else if 0 < a then JNum.posInf else JNum.negInf
  | JNum.negInf, JNum.fin b =>
      if b = 0 then JNum.nan else if 0 < b then JNum.negInf else JNum.posInf
  | JNum.fin a, JNum.negInf =>
      if a = 0 then JNum.nan else if 0 < a then JNum.negInf else JNum.posInf
  | JNum.posInf, JNum.posInf => JNum.posInf
  | JNum.posInf, JNum.negInf => JNum.negInf
  | JNum.negInf, JNum.posInf => JNum.negInf
  | JNum.negInf, JNum.negInf => JNum.posInf

/-- JavaScript division of two finite values: division by zero yields a
signed infinity (or NaN for `0 / 0`). -/
def qdiv (a b : ℚ) : JNum :=
  if b = 0 then
    (if a = 0 then JNum.nan else if 0 < a then JNum.posInf else JNum.negInf)
  else JNum.fin (a / b)

/-- Subtraction of a finite value from a `JNum`. -/
def jsubQ (x : JNum) (q : ℚ) : JNum :=
  match x with
  | JNum.fin a => JNum.fin (a - q)
  | JNum.posInf => JNum.posInf
  | JNum.negInf => JNum.negInf
  | JNum.nan => JNum.nan

/-- `Number.isFinite`. -/
def jIsFinite : JNum → Bool
  | JNum.fin _ => true
  | _ => false

/-- `Math.max` with a finite left argument (NaN absorbs). -/
def jmaxQ (q : ℚ) : JNum → JNum
  | JNum.fin a => JNum.fin (max q a)
  | JNum.posInf => JNum.posInf
  | JNum.negInf => JNum.fin q
  | JNum.nan => JNum.nan

/-- `Math.min` with a finite left argument (NaN absorbs). -/
def jminQ (q : ℚ) : JNum → JNum
  | JNum.fin a => JNum.fin (min q a)
  | JNum.posInf => JNum.fin q
  | JNum.negInf => JNum.negInf
  | JNum.nan => JNum.nan

/-- The source's `clamp(n, min, max) = Math.min(max, Math.max(min, n))`
at finite arguments. -/
def clamp (n lo hi : ℚ) : ℚ := min hi (max lo n)

/-- The source's `clamp` instantiated at a possibly non-finite `n` with
finite bounds, keeping the JavaScript `Math.min`/`Math.max` semantics. -/
def jclamp (n : JNum) (lo hi : ℚ) : JNum := jminQ hi (jmaxQ lo n)

/-- Decides whether a `JNum` is a finite value inside `[lo, hi]`. -/
def jInIcc (lo hi : ℚ) : JNum → Bool
  | JNum.fin q => decide (lo ≤ q ∧ q ≤ hi)
  | _ => false

/-- `ContributionIndexation` from the source. -/
inductive ContributionIndexation where
  | inflationAdjusted : ContributionIndexation
  | fixedNominal : ContributionIndexation
deriving DecidableEq

/-- `ContributionTiming` from the source. -/
inductive ContributionTiming where
  | «end» : ContributionTiming
  | «begin» : ContributionTiming
deriving DecidableEq

/-- `SimulationPoint` from the source.  `month` is the loop counter
(a natural number); fields that stay finite for finite inputs are plain
rationals, the balance and real-contribution fields may be non-finite. -/
structure SimulationPoint where
  month : ℕ
  age : ℚ
  inflFactor : ℚ
  balanceReal : JNum
  balanceNominal : JNum
  contributionNominal : ℚ
  contributionReal : JNum
deriving DecidableEq

/-- Parameter record of `simulateProjection` / `finalBalanceReal`.
`months` is an integer so that negative horizons (for which the source
loop does not run) are representable. -/
structure SimParams where
  pvToday : ℚ
  pmt0 : ℚ
  months : ℤ
  ageNow : ℚ
  realMonthlyRate : ℚ
  inflationMonthlyRate : ℚ
  indexation : ContributionIndexation
  timing : ContributionTiming

/-- `realMonthlyRateFromGross` from the source. -/
def realMonthlyRateFromGross (grossMonthlyRate taxOnGainsRate inflationMonthlyRate : ℚ) : JNum :=
  let tax := clamp taxOnGainsRate 0 1
  let netNominal := 1 + grossMonthlyRate * (1 - tax)
  jclamp (jsubQ (qdiv netNominal (1 + inflationMonthlyRate)) 1) (-99/100) 10

/-- `Math.pow(1 + inflM, m)` for the snapshot at month `m`. -/
def inflFactorAt (p : SimParams) (m : ℕ) : ℚ := (1 + p.inflationMonthlyRate) ^ m

/-- The nominal contribution in the snapshot at month `m`. -/
def contribNominal (p : SimParams) (m : ℕ) : ℚ :=
  match p.indexation with
  | ContributionIndexation.inflationAdjusted => p.pmt0 * inflFactorAt p m
  | ContributionIndexation.fixedNominal => p.pmt0

/-- The real contribution in the snapshot at month `m` (`pmt0 / inflFactor`
can be non-finite when the inflation factor is zero). -/
def contribReal (p : SimParams) (m : ℕ) : JNum :=
  match p.indexation with
  | ContributionIndexation.inflationAdjusted => JNum.fin p.pmt0
  | ContributionIndexation.fixedNominal => qdiv p.pmt0 (inflFactorAt p m)

/-- The snapshot pushed for month `m` at running real balance `bal`. -/
def simPoint (p : SimParams) (m : ℕ) (bal : JNum) : SimulationPoint :=
  ⟨m, p.ageNow + (m : ℚ) / 12, inflFactorAt p m, bal,
    jmul bal (JNum.fin (inflFactorAt p m)), contribNominal p m, contribReal p m⟩

/-- One per-period balance update, by timing convention. -/
def advanceBalance (t : ContributionTiming) (r : ℚ) (bal contrib : JNum) : JNum :=
  match t with
  | ContributionTiming.«begin» => jmul (jadd bal contrib) (JNum.fin (1 + r))
  | ContributionTiming.«end» => jadd (jmul bal (JNum.fin (1 + r))) contrib

/-- The balance update applied by `simulateProjection` after the month-`m`
snapshot. -/
def nextBal (p : SimParams) (m : ℕ) (bal : JNum) : JNum :=
  advanceBalance p.timing p.realMonthlyRate bal (contribReal p m)

/-- The simulation loop: starting at month `m` with `k` further months to
go and running balance `bal`, emit snapshots; stop after the last month or
as soon as the updated balance is non-finite. -/
def simLoop (p : SimParams) : ℕ → ℕ → JNum → List SimulationPoint
  | m, 0, bal => [simPoint p m bal]
  | m, k + 1, bal =>
    let bal' := nextBal p m bal
    if jIsFinite bal' = true then simPoint p m bal :: simLoop p (m + 1) k bal'
    else [simPoint p m bal]

/-- `simulateProjection` from the source: for a negative horizon the
`for` loop body never runs and the empty trajectory is returned. -/
def simulateProjection (p : SimParams) : List SimulationPoint :=
  if p.months < 0 then []
  else simLoop p 0 p.months.toNat (JNum.fin (max 0 p.pvToday))

/-- `finalBalanceReal` from the source: the last point's real balance, or
NaN for an empty trajectory. -/
def finalBalanceReal (p : SimParams) : JNum :=
  let pts := simulateProjection p
  if h : 0 < pts.length then (pts.get ⟨pts.length - 1, by omega⟩).balanceReal
  else JNum.nan

/-- Parameter record of `monthsToTarget`; `maxMonths` is optional with
default 2400. -/
structure MttParams where
  pvToday : ℚ
  pmt0 : ℚ
  targetToday : ℚ
  ageNow : ℚ
  realMonthlyRate : ℚ
  inflationMonthlyRate : ℚ
  indexation : ContributionIndexation
  timing : ContributionTiming
  maxMonths : Option ℕ

/-- The real contribution used by `monthsToTarget` at period `m`: for a
fixed-nominal policy it deflates by the previous period's inflation
factor `(1 + inflM) ^ (m - 1)`. -/
def mttContributionReal (p : MttParams) (m : ℕ) : JNum :=
  let inflFactorPrev : ℚ := (1 + p.inflationMonthlyRate) ^ (m - 1)
  match p.indexation with
  | ContributionIndexation.inflationAdjusted => JNum.fin p.pmt0
  | ContributionIndexation.fixedNominal => qdiv p.pmt0 inflFactorPrev

/-- The balance update of `monthsToTarget` at period `m`. -/
def mttAdvance (p : MttParams) (m : ℕ) (bal : ℚ) : JNum :=
  advanceBalance p.timing p.realMonthlyRate (JNum.fin bal) (mttContributionReal p m)

/-- The search loop of `monthsToTarget`: `fuel` iterations remain,
starting at period `m`; a non-finite updated balance aborts with `none`,
reaching the target returns the current period. -/
def mttLoop (p : MttParams) : ℕ → ℕ → ℚ → Option ℕ
  | _, 0, _ => none
  | m, fuel + 1, bal =>
    match mttAdvance p m bal with
    | JNum.fin q => if p.targetToday ≤ q then some m else mttLoop p (m + 1) fuel q
    | _ => none

/-- `monthsToTarget` from the source. -/
def monthsToTarget (p : MttParams) : Option ℕ :=
  let maxM := p.maxMonths.getD 2400
  if p.targetToday ≤ p.pvToday then some 0
  else mttLoop p 1 maxM (max 0 p.pvToday)

/-- Parameter record of `solveRequiredPmt`. -/
structure SolveParams where
  pvToday : ℚ
  targetToday : ℚ
  months : ℤ
  ageNow : ℚ
  realMonthlyRate : ℚ
  inflationMonthlyRate : ℚ
  indexation : ContributionIndexation
  timing : ContributionTiming

/-- The simulation parameters `{ ...params, pmt0 }` built by
`solveRequiredPmt` for a candidate contribution. -/
def solveSimParams (p : SolveParams) (pmt0 : ℚ) : SimParams :=
  ⟨p.pvToday, pmt0, p.months, p.ageNow, p.realMonthlyRate,
    p.inflationMonthlyRate, p.indexation, p.timing⟩

/-- The `reaches` predicate of `solveRequiredPmt`: the final projected
real balance is finite and at least the target. -/
def reaches (p : SolveParams) (pmt0 : ℚ) : Bool :=
  match finalBalanceReal (solveSimParams p pmt0) with
  | JNum.fin q => decide (p.targetToday ≤ q)
  | _ => false

/-- The doubling phase of `solveRequiredPmt`: while `high` does not reach
the target and iterations remain, double it; abort with `none` once it
exceeds `1e9`. -/
def growHigh (p : SolveParams) : ℚ → ℕ → Option ℚ
  | high, 0 => some high
  | high, fuel + 1 =>
    if reaches p high = true then some high
    else
      let high2 := high * 2
      if (1000000000 : ℚ) < high2 then none
      else growHigh p high2 fuel

/-- The 70-step bisection of `solveRequiredPmt`. -/
def bisect (p : SolveParams) : ℕ → ℚ → ℚ → ℚ
  | 0, _, high => high
  | n + 1, low, high =>
    let mid := (low + high) / 2
    if reaches p mid = true then bisect p n low mid else bisect p n mid high

/-- `solveRequiredPmt` from the source. -/
def solveRequiredPmt (p : SolveParams) : Option ℚ :=
  if p.months ≤ 0 then none
  else if p.targetToday ≤ p.pvToday then some 0
  else
    let high0 : ℚ := max 1 ((p.targetToday - p.pvToday) / (p.months : ℚ))
    match growHigh p high0 60 with
    | none => none
    | some high => some (max 0 (bisect p 70 0 high))

/-- Iterated balance update: the running balance after `i` updates
starting from month `m`. -/
def balIterJ (p : SimParams) : ℕ → ℕ → JNum → JNum
  | _, 0, bal => bal
  | m, i + 1, bal => balIterJ p (m + 1) i (nextBal p m bal)

theorem simLoop_length_pos (p : SimParams) (k m : ℕ) (b : JNum) :
    0 < (simLoop p m k b).length := by
  cases k with
  | zero => simp [simLoop]
  | succ k =>
    simp only [simLoop]
    split <;> simp

theorem simLoop_head (p : SimParams) (k m : ℕ) (b : JNum) :
    (simLoop p m k b).head? = some (simPoint p m b) := by
  cases k with
  | zero => simp [simLoop]
  | succ k =>
    simp only [simLoop]
    split <;> simp

theorem simLoop_get? (p : SimParams) (k : ℕ) :
    ∀ (m : ℕ) (b : JNum) (i : ℕ), i < (simLoop p m k b).length →
      (simLoop p m k b).get? i = some (simPoint p (m + i) (balIterJ p m i b)) := by
  induction k with
  | zero =>
    intro m b i h
    have hi : i = 0 := by simpa [simLoop] using h
    subst hi
    simp [simLoop, balIterJ]
  | succ k ih =>
    intro m b i h
    by_cases hf : jIsFinite (nextBal p m b) = true
    · have hrw : simLoop p m (k + 1) b
          = simPoint p m b :: simLoop p (m + 1) k (nextBal p m b) := by
        simp only [simLoop]
        rw [if_pos hf]
      rw [hrw] at h ⊢
      cases i with
      | zero => simp [balIterJ]
      | succ j =>
        have hj : j < (simLoop p (m + 1) k (nextBal p m b)).length := by
          simpa using h
        have hstep : (simPoint p m b :: simLoop p (m + 1) k (nextBal p m b)).get? (j + 1)
            = (simLoop p (m + 1) k (nextBal p m b)).get? j := rfl
        rw [hstep, ih (m + 1) (nextBal p m b) j hj]
        have hm : m + 1 + j = m + (j + 1) := by omega
        rw [hm]
        rfl
    · have hrw : simLoop p m (k + 1) b = [simPoint p m b] := by
        simp only [simLoop]
        rw [if_neg hf]
      rw [hrw] at h ⊢
      have hi : i = 0 := by simpa using h
      subst hi
      simp [balIterJ]

theorem simLoop_get (p : SimParams) (k m : ℕ) (b : JNum) (i : ℕ)
    (h : i < (simLoop p m k b).length) :
    (simLoop p m k b).get ⟨i, h⟩ = simPoint p (m + i) (balIterJ p m i b) := by
  have h1 := simLoop_get? p k m b i h
  rw [List.get?_eq_get h] at h1
  exact Option.some.inj h1

theorem balIterJ_succ (p : SimParams) :
    ∀ (i m : ℕ) (b : JNum),
      balIterJ p m (i + 1) b = nextBal p (m + i) (balIterJ p m i b) := by
  intro i
  induction i with
  | zero => intro m b; simp [balIterJ]
  | succ j ih =>
    intro m b
    have h1 : balIterJ p m (j + 1 + 1) b
        = balIterJ p (m + 1) (j + 1) (nextBal p m b) := rfl
    rw [h1, ih (m + 1) (nextBal p m b)]
    have hm : m + 1 + j = m + (j + 1) := by omega
    rw [hm]
    rfl

theorem simLoop_length_cases (p : SimParams) :
    ∀ (k m : ℕ) (b : JNum),
      (simLoop p m k b).length = k + 1
      ∨ (1 ≤ (simLoop p m k b).length ∧ (simLoop p m k b).length ≤ k
          ∧ jIsFinite (balIterJ p m (simLoop p m k b).length b) = false) := by
  intro k
  induction k with
  | zero => intro m b; left; simp [simLoop]
  | succ k ih =>
    intro m b
    by_cases hf : jIsFinite (nextBal p m b) = true
    · have hrw : simLoop p m (k + 1) b
          = simPoint p m b :: simLoop p (m + 1) k (nextBal p m b) := by
        simp only [simLoop]
        rw [if_pos hf]
      rcases ih (m + 1) (nextBal p m b) with hlen | ⟨h1, h2, h3⟩
      · left
        rw [hrw]
        simp [hlen]
      · right
        have hll : (simLoop p m (k + 1) b).length
            = (simLoop p (m + 1) k (nextBal p m b)).length + 1 := by
          rw [hrw]; simp
        refine ⟨by omega, by omega, ?_⟩
        rw [hll]
        have : balIterJ p m ((simLoop p (m + 1) k (nextBal p m b)).length + 1) b
            = balIterJ p (m + 1) (simLoop p (m + 1) k (nextBal p m b)).length
                (nextBal p m b) := rfl
        rw [this]
        exact h3
    · right
      have hrw : simLoop p m (k + 1) b = [simPoint p m b] := by
        simp only [simLoop]
        rw [if_neg hf]
      rw [hrw]
      refine ⟨by simp, by simp, ?_⟩
      have : balIterJ p m (List.length [simPoint p m b]) b = nextBal p m b := by
        simp [balIterJ]
      rw [this]
      simpa using hf

/-- The real contribution at month `m` as a rational, meaningful whenever
the inflation factor is non-zero. -/
def contribRealQ (p : SimParams) (m : ℕ) : ℚ :=
  match p.indexation with
  | ContributionIndexation.inflationAdjusted => p.pmt0
  | ContributionIndexation.fixedNominal => p.pmt0 / inflFactorAt p m

/-- The per-period balance update as a rational recurrence. -/
def advQ (p : SimParams) (m : ℕ) (b : ℚ) : ℚ :=
  match p.timing with
  | ContributionTiming.«begin» => (b + contribRealQ p m) * (1 + p.realMonthlyRate)
  | ContributionTiming.«end» => b * (1 + p.realMonthlyRate) + contribRealQ p m

/-- Iterated rational balance update. -/
def balIterQ (p : SimParams) : ℕ → ℕ → ℚ → ℚ
  | _, 0, b => b
  | m, i + 1, b => balIterQ p (m + 1) i (advQ p m b)

theorem inflFactorAt_pos (p : SimParams) (h : -1 < p.inflationMonthlyRate) (m : ℕ) :
    0 < inflFactorAt p m := by
  have h1 : (0 : ℚ) < 1 + p.inflationMonthlyRate := by linarith
  exact pow_pos h1 m

theorem contribReal_fin (p : SimParams) (h : -1 < p.inflationMonthlyRate) (m : ℕ) :
    contribReal p m = JNum.fin (contribRealQ p m) := by
  cases hidx : p.indexation with
  | inflationAdjusted => simp [contribReal, contribRealQ, hidx]
  | fixedNominal =>
    have hne : inflFactorAt p m ≠ 0 := ne_of_gt (inflFactorAt_pos p h m)
    simp [contribReal, contribRealQ, hidx, qdiv, hne]

theorem nextBal_fin (p : SimParams) (h : -1 < p.inflationMonthlyRate) (m : ℕ) (b : ℚ) :
    nextBal p m (JNum.fin b) = JNum.fin (advQ p m b) := by
  rw [nextBal, contribReal_fin p h m]
  cases ht : p.timing with
  | «begin» => simp [advanceBalance, advQ, ht, jadd, jmul]
  | «end» => simp [advanceBalance, advQ, ht, jadd, jmul]

theorem balIterJ_fin (p : SimParams) (h : -1 < p.inflationMonthlyRate) :
    ∀ (i m : ℕ) (b : ℚ),
      balIterJ p m i (JNum.fin b) = JNum.fin (balIterQ p m i b) := by
  intro i
  induction i with
  | zero => intro m b; rfl
  | succ j ih =>
    intro m b
    have h1 : balIterJ p m (j + 1) (JNum.fin b)
        = balIterJ p (m + 1) j (nextBal p m (JNum.fin b)) := rfl
    rw [h1, nextBal_fin p h m b, ih (m + 1) (advQ p m b)]
    rfl

theorem simLoop_length_fin (p : SimParams) (h : -1 < p.inflationMonthlyRate) :
    ∀ (k m : ℕ) (b : ℚ), (simLoop p m k (JNum.fin b)).length = k + 1 := by
  intro k
  induction k with
  | zero => intro m b; rfl
  | succ j ih =>
    intro m b
    have hrw : simLoop p m (j + 1) (JNum.fin b)
        = simPoint p m (JNum.fin b)
            :: simLoop p (m + 1) j (nextBal p m (JNum.fin b)) := by
      simp only [simLoop]
      rw [if_pos]
      rw [nextBal_fin p h m b]
      rfl
    rw [hrw]
    simp only [List.length_cons]
    rw [nextBal_fin p h m b, ih (m + 1) (advQ p m b)]

theorem finalBalanceReal_eq (p : SimParams) (hm : 0 ≤ p.months)
    (h : -1 < p.inflationMonthlyRate) :
    finalBalanceReal p
      = JNum.fin (balIterQ p 0 p.months.toNat (max 0 p.pvToday)) := by
  have hsim : simulateProjection p
      = simLoop p 0 p.months.toNat (JNum.fin (max 0 p.pvToday)) := by
    rw [simulateProjection, if_neg (by omega)]
  have hlen : (simulateProjection p).length = p.months.toNat + 1 := by
    rw [hsim]; exact simLoop_length_fin p h p.months.toNat 0 (max 0 p.pvToday)
  have hpos : 0 < (simulateProjection p).length := by omega
  rw [finalBalanceReal]
  rw [dif_pos hpos]
  have hidx : (simulateProjection p).length - 1 < (simulateProjection p).length := by omega
  have hq : (simulateProjection p).get? ((simulateProjection p).length - 1)
      = some ((simulateProjection p).get ⟨(simulateProjection p).length - 1, hidx⟩) :=
    List.get?_eq_get hidx
  have hval : (simulateProjection p).length - 1 = p.months.toNat := by omega
  have hq2 : (simulateProjection p).get? ((simulateProjection p).length - 1)
      = some (simPoint p (0 + p.months.toNat)
          (balIterJ p 0 p.months.toNat (JNum.fin (max 0 p.pvToday)))) := by
    rw [hval, hsim]
    exact simLoop_get? p p.months.toNat 0 (JNum.fin (max 0 p.pvToday))
      p.months.toNat (by rw [simLoop_length_fin p h]; omega)
  have hget := Option.some.inj (hq.symm.trans hq2)
  rw [hget]
  rw [balIterJ_fin p h p.months.toNat 0 (max 0 p.pvToday)]
  rfl

/-- The same simulation parameters with the base contribution replaced,
mirroring `{ ...params, pmt0 }`. -/
def setPmt (p : SimParams) (c : ℚ) : SimParams :=
  ⟨p.pvToday, c, p.months, p.ageNow, p.realMonthlyRate,
    p.inflationMonthlyRate, p.indexation, p.timing⟩

theorem contribRealQ_mono (p : SimParams) (a b : ℚ)
    (h : -1 < p.inflationMonthlyRate) (hab : a ≤ b) (m : ℕ) :
    contribRealQ (setPmt p a) m ≤ contribRealQ (setPmt p b) m := by
  cases hidx : p.indexation with
  | inflationAdjusted =>
    simp only [contribRealQ, setPmt, hidx]
    exact hab
  | fixedNominal =>
    have hpos : (0 : ℚ) < (1 + p.inflationMonthlyRate) ^ m := pow_pos (by linarith) m
    have ha : contribRealQ (setPmt p a) m = a / (1 + p.inflationMonthlyRate) ^ m := by
      simp [contribRealQ, setPmt, hidx, inflFactorAt]
    have hb : contribRealQ (setPmt p b) m = b / (1 + p.inflationMonthlyRate) ^ m := by
      simp [contribRealQ, setPmt, hidx, inflFactorAt]
    rw [ha, hb, div_eq_mul_inv, div_eq_mul_inv]
    exact mul_le_mul_of_nonneg_right hab (inv_nonneg.mpr (le_of_lt hpos))

theorem advQ_mono (p : SimParams) (a b : ℚ)
    (hr : -1 ≤ p.realMonthlyRate) (h : -1 < p.inflationMonthlyRate)
    (hab : a ≤ b) (m : ℕ) (x y : ℚ) (hxy : x ≤ y) :
    advQ (setPmt p a) m x ≤ advQ (setPmt p b) m y := by
  have hc := contribRealQ_mono p a b h hab m
  have hr0 : (0 : ℚ) ≤ 1 + p.realMonthlyRate := by linarith
  cases ht : p.timing with
  | «begin» =>
    simp only [advQ, setPmt, ht]
    exact mul_le_mul_of_nonneg_right (add_le_add hxy hc) hr0
  | «end» =>
    simp only [advQ, setPmt, ht]
    exact add_le_add (mul_le_mul_of_nonneg_right hxy hr0) hc

theorem balIterQ_mono (p : SimParams) (a b : ℚ)
    (hr : -1 ≤ p.realMonthlyRate) (h : -1 < p.inflationMonthlyRate)
    (hab : a ≤ b) :
    ∀ (i m : ℕ) (x y : ℚ), x ≤ y →
      balIterQ (setPmt p a) m i x ≤ balIterQ (setPmt p b) m i y := by
  intro i
  induction i with
  | zero => intro m x y hxy; exact hxy
  | succ j ih =>
    intro m x y hxy
    have h1 : balIterQ (setPmt p a) m (j + 1) x
        = balIterQ (setPmt p a) (m + 1) j (advQ (setPmt p a) m x) := rfl
    have h2 : balIterQ (setPmt p b) m (j + 1) y
        = balIterQ (setPmt p b) (m + 1) j (advQ (setPmt p b) m y) := rfl
    rw [h1, h2]
    exact ih (m + 1) _ _ (advQ_mono p a b hr h hab m x y hxy)

/-- C1: the final real balance of the projection is monotone
non-decreasing in the base contribution — as claimed for all rate
parameters, this is false; it holds once the real monthly rate is at
least -100% and the monthly inflation is strictly above -100% (and the
horizon is non-negative, so that a final balance exists). -/
theorem finalBalanceReal_mono_pmt (p : SimParams) (a b : ℚ)
    (hm : 0 ≤ p.months) (hr : -1 ≤ p.realMonthlyRate)
    (hi : -1 < p.inflationMonthlyRate) (hab : a ≤ b) :
    ∃ qa qb, finalBalanceReal (setPmt p a) = JNum.fin qa
      ∧ finalBalanceReal (setPmt p b) = JNum.fin qb ∧ qa ≤ qb := by
  have hma : 0 ≤ (setPmt p a).months := hm
  have hmb : 0 ≤ (setPmt p b).months := hm
  have hia : -1 < (setPmt p a).inflationMonthlyRate := hi
  have hib : -1 < (setPmt p b).inflationMonthlyRate := hi
  refine ⟨balIterQ (setPmt p a) 0 p.months.toNat (max 0 p.pvToday),
    balIterQ (setPmt p b) 0 p.months.toNat (max 0 p.pvToday),
    finalBalanceReal_eq (setPmt p a) hma hia,
    finalBalanceReal_eq (setPmt p b) hmb hib, ?_⟩
  exact balIterQ_mono p a b hr hi hab p.months.toNat 0 _ _ (le_refl _)

/-- Concrete parameters refuting C1 as stated: real monthly rate -200%
with begin-timing. -/
def cexC1 : SimParams :=
  ⟨0, 0, 1, 0, -2, 0, ContributionIndexation.inflationAdjusted,
    ContributionTiming.«begin»⟩

/-- C1 counterexample: with pvToday = 0, months = 1, realMonthlyRate = -2,
inflation 0, begin timing, raising the base contribution from 0 to 1
lowers the final real balance from 0 to -1, so the final balance is not
monotone in pmt0 for every fixed rate. -/
theorem finalBalanceReal_mono_pmt_cex :
    (0 : ℚ) ≤ 1
    ∧ finalBalanceReal (setPmt cexC1 0) = JNum.fin 0
    ∧ finalBalanceReal (setPmt cexC1 1) = JNum.fin (-1)
    ∧ ¬ ((0 : ℚ) ≤ -1) := by
  refine ⟨by norm_num, ?_, ?_, by norm_num⟩
  · rw [finalBalanceReal_eq (setPmt cexC1 0) (by decide) (by decide)]
    have h2 : balIterQ (setPmt cexC1 0) 0 (setPmt cexC1 0).months.toNat
        (max 0 (setPmt cexC1 0).pvToday) = advQ (setPmt cexC1 0) 0 (max 0 0) := rfl
    rw [h2]
    have h3 : advQ (setPmt cexC1 0) 0 (max 0 0) = 0 := by
      simp [advQ, setPmt, cexC1, contribRealQ]
    rw [h3]
  · rw [finalBalanceReal_eq (setPmt cexC1 1) (by decide) (by decide)]
    have h2 : balIterQ (setPmt cexC1 1) 0 (setPmt cexC1 1).months.toNat
        (max 0 (setPmt cexC1 1).pvToday) = advQ (setPmt cexC1 1) 0 (max 0 0) := rfl
    rw [h2]
    have h3 : advQ (setPmt cexC1 1) 0 (max 0 0) = -1 := by
      simp [advQ, setPmt, cexC1, contribRealQ]
      norm_num
    rw [h3]

/-- C1 witness: a concrete instance of the amended monotonicity
theorem. -/
theorem finalBalanceReal_mono_pmt_witness :
    ∃ qa qb,
      finalBalanceReal (setPmt ⟨1000, 0, 2, 30, 1/100, 1/500,
          ContributionIndexation.inflationAdjusted, ContributionTiming.«end»⟩ 100)
        = JNum.fin qa
      ∧ finalBalanceReal (setPmt ⟨1000, 0, 2, 30, 1/100, 1/500,
          ContributionIndexation.inflationAdjusted, ContributionTiming.«end»⟩ 200)
        = JNum.fin qb
      ∧ qa ≤ qb :=
  finalBalanceReal_mono_pmt
    ⟨1000, 0, 2, 30, 1/100, 1/500, ContributionIndexation.inflationAdjusted,
      ContributionTiming.«end»⟩ 100 200
    (by decide) (by norm_num) (by norm_num) (by norm_num)

/-- C2: for every month that is not the last one stored, the next stored
real balance follows the timing convention: begin-timing adds the real
contribution then applies the return, end-timing applies the return then
adds the real contribution. -/
theorem simulateProjection_step (p : SimParams) (m : ℕ)
    (h : m + 1 < (simulateProjection p).length) :
    (p.timing = ContributionTiming.«begin» →
      ((simulateProjection p).get ⟨m + 1, h⟩).balanceReal
        = jmul (jadd (((simulateProjection p).get ⟨m, by omega⟩).balanceReal)
            (((simulateProjection p).get ⟨m, by omega⟩).contributionReal))
            (JNum.fin (1 + p.realMonthlyRate)))
    ∧ (p.timing = ContributionTiming.«end» →
      ((simulateProjection p).get ⟨m + 1, h⟩).balanceReal
        = jadd (jmul (((simulateProjection p).get ⟨m, by omega⟩).balanceReal)
            (JNum.fin (1 + p.realMonthlyRate)))
            (((simulateProjection p).get ⟨m, by omega⟩).contributionReal)) := by
  have hneg : ¬ p.months < 0 := by
    intro hc
    rw [simulateProjection, if_pos hc] at h
    simp at h
  have hsim : simulateProjection p
      = simLoop p 0 p.months.toNat (JNum.fin (max 0 p.pvToday)) := by
    rw [simulateProjection, if_neg hneg]
  have h1 : m + 1 < (simLoop p 0 p.months.toNat (JNum.fin (max 0 p.pvToday))).length := by
    rw [← hsim]; exact h
  have h0 : m < (simulateProjection p).length := by omega
  have e1 : (simulateProjection p).get ⟨m + 1, h⟩
      = simPoint p (0 + (m + 1))
          (balIterJ p 0 (m + 1) (JNum.fin (max 0 p.pvToday))) := by
    have q1 := List.get?_eq_get h
    have q2 : (simulateProjection p).get? (m + 1)
        = some (simPoint p (0 + (m + 1))
            (balIterJ p 0 (m + 1) (JNum.fin (max 0 p.pvToday)))) := by
      rw [hsim]
      exact simLoop_get? p p.months.toNat 0 (JNum.fin (max 0 p.pvToday)) (m + 1) h1
    exact Option.some.inj (q1.symm.trans q2)
  have e0 : (simulateProjection p).get ⟨m, h0⟩
      = simPoint p (0 + m) (balIterJ p 0 m (JNum.fin (max 0 p.pvToday))) := by
    have q1 := List.get?_eq_get h0
    have q2 : (simulateProjection p).get? m
        = some (simPoint p (0 + m)
            (balIterJ p 0 m (JNum.fin (max 0 p.pvToday)))) := by
      rw [hsim]
      exact simLoop_get? p p.months.toNat 0 (JNum.fin (max 0 p.pvToday)) m (by omega)
    exact Option.some.inj (q1.symm.trans q2)
  rw [e1, e0]
  have hsucc : balIterJ p 0 (m + 1) (JNum.fin (max 0 p.pvToday))
      = nextBal p (0 + m) (balIterJ p 0 m (JNum.fin (max 0 p.pvToday))) :=
    balIterJ_succ p m 0 (JNum.fin (max 0 p.pvToday))
  constructor
  · intro ht
    show balIterJ p 0 (m + 1) (JNum.fin (max 0 p.pvToday))
        = jmul (jadd (balIterJ p 0 m (JNum.fin (max 0 p.pvToday)))
            (contribReal p (0 + m))) (JNum.fin (1 + p.realMonthlyRate))
    rw [hsucc, nextBal, ht]
    rfl
  · intro ht
    show balIterJ p 0 (m + 1) (JNum.fin (max 0 p.pvToday))
        = jadd (jmul (balIterJ p 0 m (JNum.fin (max 0 p.pvToday)))
            (JNum.fin (1 + p.realMonthlyRate))) (contribReal p (0 + m))
    rw [hsucc, nextBal, ht]
    rfl

/-- The concrete scenario used by the spec's reference tests: pv 1000,
base contribution 500, two months, age 30, real rate 1%, inflation 0.2%,
inflation-adjusted contributions applied at period end. -/
def scenarioParams : SimParams :=
  ⟨1000, 500, 2, 30, 1/100, 1/500, ContributionIndexation.inflationAdjusted,
    ContributionTiming.«end»⟩

/-- C2 witness: the step relation instantiated in the concrete scenario
at month 0. -/
theorem simulateProjection_step_witness :
    ((simulateProjection scenarioParams).get ⟨1, by decide⟩).balanceReal
      = jadd (jmul (((simulateProjection scenarioParams).get ⟨0, by decide⟩).balanceReal)
          (JNum.fin (1 + scenarioParams.realMonthlyRate)))
          (((simulateProjection scenarioParams).get ⟨0, by decide⟩).contributionReal) :=
  (simulateProjection_step scenarioParams 0 (by decide)).2 rfl

theorem simulateProjection_get (p : SimParams) (i : ℕ)
    (hi : i < (simulateProjection p).length) :
    (simulateProjection p).get ⟨i, hi⟩
      = simPoint p i (balIterJ p 0 i (JNum.fin (max 0 p.pvToday))) := by
  have hneg : ¬ p.months < 0 := by
    intro hc
    rw [simulateProjection, if_pos hc] at hi
    simp at hi
  have hsim : simulateProjection p
      = simLoop p 0 p.months.toNat (JNum.fin (max 0 p.pvToday)) := by
    rw [simulateProjection, if_neg hneg]
  have q1 := List.get?_eq_get hi
  have q2 : (simulateProjection p).get? i
      = some (simPoint p (0 + i)
          (balIterJ p 0 i (JNum.fin (max 0 p.pvToday)))) := by
    rw [hsim]
    exact simLoop_get? p p.months.toNat 0 (JNum.fin (max 0 p.pvToday)) i
      (by rw [← hsim]; exact hi)
  have he := Option.some.inj (q1.symm.trans q2)
  rw [he]
  simp only [Nat.zero_add]

/-- C3: for a non-negative horizon the trajectory either has exactly
`months + 1` points, or it is a strictly shorter non-empty prefix cut at
the first non-finite running balance; and every stored point is the
snapshot of the ideal balance iteration (a prefix, never padded). -/
theorem simulateProjection_length_spec (p : SimParams) (hm : 0 ≤ p.months) :
    ((simulateProjection p).length = p.months.toNat + 1
      ∨ (1 ≤ (simulateProjection p).length
          ∧ (simulateProjection p).length ≤ p.months.toNat
          ∧ jIsFinite (balIterJ p 0 (simulateProjection p).length
              (JNum.fin (max 0 p.pvToday))) = false))
    ∧ ∀ (i : ℕ) (hi : i < (simulateProjection p).length),
        (simulateProjection p).get ⟨i, hi⟩
          = simPoint p i (balIterJ p 0 i (JNum.fin (max 0 p.pvToday))) := by
  constructor
  · have hsim : simulateProjection p
        = simLoop p 0 p.months.toNat (JNum.fin (max 0 p.pvToday)) := by
      rw [simulateProjection, if_neg (by omega)]
    rw [hsim]
    exact simLoop_length_cases p p.months.toNat 0 (JNum.fin (max 0 p.pvToday))
  · intro i hi
    exact simulateProjection_get p i hi

/-- C3 witness: the concrete scenario has the full 3 = months + 1
points. -/
theorem simulateProjection_length_spec_witness :
    (simulateProjection scenarioParams).length = scenarioParams.months.toNat + 1
      ∨ (1 ≤ (simulateProjection scenarioParams).length
          ∧ (simulateProjection scenarioParams).length ≤ scenarioParams.months.toNat
          ∧ jIsFinite (balIterJ scenarioParams 0 (simulateProjection scenarioParams).length
              (JNum.fin (max 0 scenarioParams.pvToday))) = false) :=
  (simulateProjection_length_spec scenarioParams (by decide)).1

/-- C8: along any trajectory the `month` field is strictly increasing;
the claim that `inflFactor` is non-decreasing whenever inflation is at
least -100% is false (see the counterexample), it holds for non-negative
inflation. -/
theorem simulateProjection_invariant (p : SimParams) (i : ℕ)
    (h : i + 1 < (simulateProjection p).length) :
    ((simulateProjection p).get ⟨i, by omega⟩).month
        < ((simulateProjection p).get ⟨i + 1, h⟩).month
    ∧ (0 ≤ p.inflationMonthlyRate →
        ((simulateProjection p).get ⟨i, by omega⟩).inflFactor
          ≤ ((simulateProjection p).get ⟨i + 1, h⟩).inflFactor) := by
  rw [simulateProjection_get p i (by omega), simulateProjection_get p (i + 1) h]
  constructor
  · show i < i + 1
    omega
  · intro hinfl
    show inflFactorAt p i ≤ inflFactorAt p (i + 1)
    have h1 : (0 : ℚ) ≤ (1 + p.inflationMonthlyRate) ^ i :=
      pow_nonneg (by linarith) i
    have h2 : (1 + p.inflationMonthlyRate) ^ i * 1
        ≤ (1 + p.inflationMonthlyRate) ^ i * (1 + p.inflationMonthlyRate) :=
      mul_le_mul_of_nonneg_left (by linarith) h1
    rw [mul_one] at h2
    calc inflFactorAt p i
        = (1 + p.inflationMonthlyRate) ^ i := rfl
      _ ≤ (1 + p.inflationMonthlyRate) ^ i * (1 + p.inflationMonthlyRate) := h2
      _ = inflFactorAt p (i + 1) := by rw [inflFactorAt, pow_succ]

/-- Concrete parameters refuting the C8 inflation-factor claim: monthly
inflation -50%, which is at least -100%. -/
def cexC8 : SimParams :=
  ⟨0, 0, 1, 0, 0, -1/2, ContributionIndexation.inflationAdjusted,
    ContributionTiming.«end»⟩

/-- C8 counterexample: with inflation -50% (which is ≥ -100%) the
`inflFactor` sequence is [1, 1/2], strictly decreasing, refuting the
non-decreasing claim for inflation ≥ -100%. -/
theorem simulateProjection_invariant_cex :
    (-1 : ℚ) ≤ cexC8.inflationMonthlyRate
    ∧ (simulateProjection cexC8).map SimulationPoint.inflFactor = [1, 1/2]
    ∧ ¬ ((1 : ℚ) ≤ 1/2) := by
  refine ⟨by norm_num [cexC8], ?_, by norm_num⟩
  have h1 : (simulateProjection cexC8).map SimulationPoint.inflFactor
      = [inflFactorAt cexC8 0, inflFactorAt cexC8 1] := rfl
  rw [h1]
  simp [inflFactorAt, cexC8]
  norm_num

/-- C8 witness: in the concrete scenario month increases and (inflation
being positive) the inflation factor does not decrease between the first
two points. -/
theorem simulateProjection_invariant_witness :
    ((simulateProjection scenarioParams).get ⟨0, by decide⟩).month
        < ((simulateProjection scenarioParams).get ⟨1, by decide⟩).month
    ∧ ((simulateProjection scenarioParams).get ⟨0, by decide⟩).inflFactor
        ≤ ((simulateProjection scenarioParams).get ⟨1, by decide⟩).inflFactor := by
  have h := simulateProjection_invariant scenarioParams 0 (by decide)
  exact ⟨h.1, h.2 (by norm_num [scenarioParams])⟩

/-- C10: the trajectory is empty exactly for a negative horizon (the
NaN branch of `finalBalanceReal` is taken exactly then), and for a
non-negative horizon the first point is the month-0 snapshot with
inflation factor 1 and real balance `max(0, pvToday)` — a negative
present value is seeded as zero. -/
theorem simulateProjection_seed (p : SimParams) :
    ((simulateProjection p = []) ↔ p.months < 0)
    ∧ (p.months < 0 → finalBalanceReal p = JNum.nan)
    ∧ (0 ≤ p.months →
        ((simulateProjection p).head?).map
            (fun pt => (pt.month, pt.inflFactor, pt.balanceReal))
          = some (0, 1, JNum.fin (max 0 p.pvToday))) := by
  refine ⟨⟨?_, ?_⟩, ?_, ?_⟩
  · intro he
    by_contra hq
    rw [simulateProjection, if_neg hq] at he
    have hpos := simLoop_length_pos p p.months.toNat 0 (JNum.fin (max 0 p.pvToday))
    rw [he] at hpos
    simp at hpos
  · intro hlt
    rw [simulateProjection, if_pos hlt]
  · intro hlt
    have hempty : simulateProjection p = [] := by
      rw [simulateProjection, if_pos hlt]
    simp [finalBalanceReal, hempty]
  · intro hge
    rw [simulateProjection, if_neg (by omega)]
    rw [simLoop_head]
    simp [simPoint, inflFactorAt]

/-- Concrete parameters with a negative horizon. -/
def negHorizonParams : SimParams :=
  ⟨5, 7, -1, 40, 0, 0, ContributionIndexation.inflationAdjusted,
    ContributionTiming.«end»⟩

/-- C10 witness: a negative horizon yields the NaN branch, and the
concrete scenario's first point carries month 0, inflation factor 1 and
the seeded balance. -/
theorem simulateProjection_seed_witness :
    finalBalanceReal negHorizonParams = JNum.nan
    ∧ ((simulateProjection scenarioParams).head?).map
        (fun pt => (pt.month, pt.inflFactor, pt.balanceReal))
      = some (0, 1, JNum.fin (max 0 scenarioParams.pvToday)) :=
  ⟨(simulateProjection_seed negHorizonParams).2.1 (by decide),
    (simulateProjection_seed scenarioParams).2.2 (by decide)⟩

theorem scenarioFinalValue :
    finalBalanceReal scenarioParams = JNum.fin (20251/10) := by
  have h0 := finalBalanceReal_eq scenarioParams (by decide) (by norm_num [scenarioParams])
  have h1 : balIterQ scenarioParams 0 scenarioParams.months.toNat
        (max 0 scenarioParams.pvToday)
      = advQ scenarioParams 1 (advQ scenarioParams 0 (max 0 (1000 : ℚ))) := rfl
  have c1 : advQ scenarioParams 0 (max 0 (1000 : ℚ)) = 1510 := by
    simp [advQ, contribRealQ, scenarioParams]
    norm_num
  have c2 : advQ scenarioParams 1 (1510 : ℚ) = 20251/10 := by
    simp [advQ, contribRealQ, scenarioParams]
    norm_num
  rw [h0, h1, c1, c2]

/-- C9 counterexample: in the reference scenario the exact final real
balance is 2025.1, which is not within the reference test's tolerance
(half of 10^-2) of the claimed 2025.05. -/
theorem scenario_final_balance_cex :
    finalBalanceReal scenarioParams = JNum.fin (20251/10)
    ∧ ¬ (|(20251 : ℚ)/10 - 202505/100| < 1/200) := by
  refine ⟨scenarioFinalValue, ?_⟩
  have h : |(20251 : ℚ)/10 - 202505/100| = 1/20 := by
    rw [show (20251 : ℚ)/10 - 202505/100 = 1/20 by norm_num]
    exact abs_of_pos (by norm_num)
  rw [h]
  norm_num

/-- C9 (amended): the reference scenario yields 3 points, month-1 nominal
contribution exactly 501, and final real balance exactly 2025.1 (not
approximately 2025.05). -/
theorem scenario_simulation_values :
    (simulateProjection scenarioParams).length = 3
    ∧ ((simulateProjection scenarioParams).map
        SimulationPoint.contributionNominal).get? 1 = some 501
    ∧ finalBalanceReal scenarioParams = JNum.fin (20251/10) := by
  refine ⟨rfl, ?_, scenarioFinalValue⟩
  have h1 : ((simulateProjection scenarioParams).map
      SimulationPoint.contributionNominal).get? 1
      = some (contribNominal scenarioParams 1) := rfl
  rw [h1]
  have h2 : contribNominal scenarioParams 1 = 501 := by
    simp [contribNominal, inflFactorAt, scenarioParams]
    norm_num
  rw [h2]

/-- C4: under a fixed-nominal policy, the Horizon Solver's real
contribution for period `m ≥ 1` deflates by the previous period's
inflation factor `(1+i)^(m-1)`, while the Simulator's stored snapshot for
month `m` deflates by the current factor `(1+i)^m` — a one-period offset
between the two loops. -/
theorem mtt_sim_contribution_offset (mp : MttParams) (sp : SimParams) (m : ℕ)
    (hmp : mp.indexation = ContributionIndexation.fixedNominal)
    (hsp : sp.indexation = ContributionIndexation.fixedNominal)
    (hpmt : sp.pmt0 = mp.pmt0)
    (hinfl : sp.inflationMonthlyRate = mp.inflationMonthlyRate)
    (hm : 1 ≤ m) :
    mttContributionReal mp m
        = qdiv mp.pmt0 ((1 + mp.inflationMonthlyRate) ^ (m - 1))
    ∧ ∀ (h : m < (simulateProjection sp).length),
        ((simulateProjection sp).get ⟨m, h⟩).contributionReal
          = qdiv mp.pmt0 ((1 + mp.inflationMonthlyRate) ^ m) := by
  constructor
  · simp [mttContributionReal, hmp]
  · intro h
    rw [simulateProjection_get sp m h]
    show contribReal sp m = qdiv mp.pmt0 ((1 + mp.inflationMonthlyRate) ^ m)
    simp [contribReal, hsp, inflFactorAt, hpmt, hinfl]

/-- Horizon-solver parameters for the C4 witness. -/
def mttOffsetParams : MttParams :=
  ⟨0, 5, 100, 0, 0, 1/10, ContributionIndexation.fixedNominal,
    ContributionTiming.«end», none⟩

/-- Simulator parameters matching `mttOffsetParams` for the C4 witness. -/
def simOffsetParams : SimParams :=
  ⟨0, 5, 2, 0, 0, 1/10, ContributionIndexation.fixedNominal,
    ContributionTiming.«end»⟩

theorem simOffsetParams_length : 2 < (simulateProjection simOffsetParams).length := by
  have h : (simulateProjection simOffsetParams).length = 3 := by
    rw [simulateProjection, if_neg (by decide)]
    exact simLoop_length_fin simOffsetParams (by norm_num [simOffsetParams]) 2 0
      (max 0 simOffsetParams.pvToday)
  omega

/-- C4 witness: the one-period offset at period 2 of the concrete
fixed-nominal scenario. -/
theorem mtt_sim_contribution_offset_witness :
    mttContributionReal mttOffsetParams 2
        = qdiv mttOffsetParams.pmt0 ((1 + mttOffsetParams.inflationMonthlyRate) ^ (2 - 1))
    ∧ ((simulateProjection simOffsetParams).get ⟨2, simOffsetParams_length⟩).contributionReal
        = qdiv mttOffsetParams.pmt0 ((1 + mttOffsetParams.inflationMonthlyRate) ^ 2) := by
  have h := mtt_sim_contribution_offset mttOffsetParams simOffsetParams 2
    rfl rfl rfl rfl (by norm_num)
  exact ⟨h.1, h.2 simOffsetParams_length⟩

/-- C5: `monthsToTarget` returns 0 whenever the target is at most the
present value; `solveRequiredPmt` does so only when additionally the
horizon is positive (a non-positive horizon returns null first). -/
theorem target_leq_pv_returns_zero (mp : MttParams) (sp : SolveParams)
    (h1 : mp.targetToday ≤ mp.pvToday) (h2 : sp.targetToday ≤ sp.pvToday)
    (h3 : 0 < sp.months) :
    monthsToTarget mp = some 0 ∧ solveRequiredPmt sp = some 0 := by
  constructor
  · simp only [monthsToTarget]
    rw [if_pos h1]
  · simp only [solveRequiredPmt]
    rw [if_neg (by omega), if_pos h2]

/-- Parameters refuting the horizon-independent half of C5. -/
def cexC5 : SolveParams :=
  ⟨0, 0, 0, 0, 0, 0, ContributionIndexation.inflationAdjusted,
    ContributionTiming.«end»⟩

/-- C5 counterexample: with target = pv = 0 but months = 0,
`solveRequiredPmt` returns null, not 0 — the months guard precedes the
target check, so the result is not 0 "regardless of the horizon". -/
theorem target_leq_pv_returns_zero_cex :
    cexC5.targetToday ≤ cexC5.pvToday ∧ solveRequiredPmt cexC5 = none :=
  ⟨by decide, rfl⟩

/-- C5 witness parameters. -/
def wC5m : MttParams :=
  ⟨10, 1, 5, 0, 0, 0, ContributionIndexation.inflationAdjusted,
    ContributionTiming.«end», none⟩

/-- C5 witness parameters for the contribution solver. -/
def wC5s : SolveParams :=
  ⟨10, 5, 12, 0, 0, 0, ContributionIndexation.inflationAdjusted,
    ContributionTiming.«end»⟩

/-- C5 witness: both solvers return 0 when the target is already met and
the horizon is positive. -/
theorem target_leq_pv_returns_zero_witness :
    monthsToTarget wC5m = some 0 ∧ solveRequiredPmt wC5s = some 0 :=
  target_leq_pv_returns_zero wC5m wC5s (by decide) (by decide) (by decide)

theorem growHigh_doubles_none (p : SolveParams)
    (hr : ∀ c : ℚ, reaches p c = false) :
    ∀ (f : ℕ) (high : ℚ), (1000000000 : ℚ) < 2 ^ f * high →
      growHigh p high (f + 1) = none := by
  intro f
  induction f with
  | zero =>
    intro high hb
    rw [pow_zero, one_mul] at hb
    show (if reaches p high = true then some high
      else if (1000000000 : ℚ) < high * 2 then none
      else growHigh p (high * 2) 0) = none
    rw [if_neg (by rw [hr high]; simp), if_pos (by linarith)]
  | succ g ih =>
    intro high hb
    show (if reaches p high = true then some high
      else if (1000000000 : ℚ) < high * 2 then none
      else growHigh p (high * 2) (g + 1)) = none
    rw [if_neg (by rw [hr high]; simp)]
    by_cases hc : (1000000000 : ℚ) < high * 2
    · rw [if_pos hc]
    · rw [if_neg hc]
      apply ih (high * 2)
      calc (1000000000 : ℚ) < 2 ^ (g + 1) * high := hb
        _ = 2 ^ g * (high * 2) := by ring

/-- C6: when no contribution level ever reaches the target, the doubling
phase necessarily hits its cap and `solveRequiredPmt` returns null
rather than a contribution amount. -/
theorem solveRequiredPmt_unreachable (p : SolveParams) (hm : 0 < p.months)
    (ht : p.pvToday < p.targetToday) (hr : ∀ c : ℚ, reaches p c = false) :
    solveRequiredPmt p = none := by
  simp only [solveRequiredPmt]
  rw [if_neg (by omega), if_neg (not_le.mpr ht)]
  have hhigh : (1 : ℚ) ≤ max 1 ((p.targetToday - p.pvToday) / (p.months : ℚ)) :=
    le_max_left 1 _
  have hb : (1000000000 : ℚ)
      < 2 ^ 59 * max 1 ((p.targetToday - p.pvToday) / (p.months : ℚ)) := by
    calc (1000000000 : ℚ) < 2 ^ 59 := by norm_num
      _ = 2 ^ 59 * 1 := by ring
      _ ≤ 2 ^ 59 * max 1 ((p.targetToday - p.pvToday) / (p.months : ℚ)) :=
          mul_le_mul_of_nonneg_left hhigh (by positivity)
  have hg : growHigh p (max 1 ((p.targetToday - p.pvToday) / (p.months : ℚ))) 60
      = none := growHigh_doubles_none p hr 59 _ hb
  rw [hg]

/-- Parameters whose target no contribution can reach: begin-timing with
real rate -100% wipes out every period's balance. -/
def unreachableParams : SolveParams :=
  ⟨0, 10, 1, 0, -1, 0, ContributionIndexation.inflationAdjusted,
    ContributionTiming.«begin»⟩

theorem reaches_unreachableParams (c : ℚ) : reaches unreachableParams c = false := by
  rw [reaches]
  have hp : -1 < (solveSimParams unreachableParams c).inflationMonthlyRate := by
    norm_num [solveSimParams, unreachableParams]
  rw [finalBalanceReal_eq (solveSimParams unreachableParams c)
    (by norm_num [solveSimParams, unreachableParams]) hp]
  have h1 : balIterQ (solveSimParams unreachableParams c) 0
      (solveSimParams unreachableParams c).months.toNat
      (max 0 (solveSimParams unreachableParams c).pvToday)
      = advQ (solveSimParams unreachableParams c) 0 (max 0 0) := rfl
  have h2 : advQ (solveSimParams unreachableParams c) 0 (max 0 0) = 0 := by
    simp [advQ, contribRealQ, solveSimParams, unreachableParams]
  rw [h1, h2]
  simp [solveSimParams, unreachableParams]

/-- C6 witness: a concrete unreachable goal makes the solver return
null. -/
theorem solveRequiredPmt_unreachable_witness :
    solveRequiredPmt unreachableParams = none :=
  solveRequiredPmt_unreachable unreachableParams (by decide) (by decide)
    reaches_unreachableParams

/-- C7 counterexample: at gross rate -100%, tax 0 and inflation -100%,
the division 0/0 yields NaN, the clamp keeps NaN, and the result is not a
finite value of [-0.99, 10]. -/
theorem realMonthlyRateFromGross_range_cex :
    realMonthlyRateFromGross (-1) 0 (-1) = JNum.nan
    ∧ jInIcc (-99/100) 10 (realMonthlyRateFromGross (-1) 0 (-1)) = false := by
  have h : realMonthlyRateFromGross (-1) 0 (-1) = JNum.nan := by
    have hnet : (1 : ℚ) + (-1) * (1 - clamp 0 0 1) = 0 := by
      norm_num [clamp]
    have hinfl : (1 : ℚ) + (-1) = 0 := by norm_num
    rw [realMonthlyRateFromGross]
    rw [hnet, hinfl]
    rw [qdiv, if_pos rfl, if_pos rfl]
    rfl
  exact ⟨h, by rw [h]; rfl⟩

/-- C7 (amended): except at the single NaN-producing degenerate input
(deflator `1 + inflation` zero together with zero net nominal factor),
the clamped result of `realMonthlyRateFromGross` is a finite value in
[-0.99, 10]. -/
theorem realMonthlyRateFromGross_range (g tax infl : ℚ)
    (h : ¬ (1 + infl = 0 ∧ 1 + g * (1 - clamp tax 0 1) = 0)) :
    jInIcc (-99/100) 10 (realMonthlyRateFromGross g tax infl) = true := by
  by_cases hz : 1 + infl = 0
  · have hnet : 1 + g * (1 - clamp tax 0 1) ≠ 0 := fun hc => h ⟨hz, hc⟩
    rcases lt_trichotomy (1 + g * (1 - clamp tax 0 1)) 0 with hlt | heq | hgt
    · have hq : qdiv (1 + g * (1 - clamp tax 0 1)) (1 + infl) = JNum.negInf := by
        rw [qdiv, if_pos hz, if_neg hnet, if_neg (by linarith)]
      rw [realMonthlyRateFromGross, hq]
      simp [jclamp, jsubQ, jmaxQ, jminQ, jInIcc]
      norm_num
    · exact absurd heq hnet
    · have hq : qdiv (1 + g * (1 - clamp tax 0 1)) (1 + infl) = JNum.posInf := by
        rw [qdiv, if_pos hz, if_neg hnet, if_pos hgt]
      rw [realMonthlyRateFromGross, hq]
      simp [jclamp, jsubQ, jmaxQ, jminQ, jInIcc]
      norm_num
  · have hq : qdiv (1 + g * (1 - clamp tax 0 1)) (1 + infl)
        = JNum.fin ((1 + g * (1 - clamp tax 0 1)) / (1 + infl)) := by
      rw [qdiv, if_neg hz]
    rw [realMonthlyRateFromGross, hq]
    simp only [jclamp, jsubQ, jmaxQ, jminQ, jInIcc, decide_eq_true_eq]
    constructor
    · exact le_min (by norm_num) (le_max_left _ _)
    · exact min_le_left _ _

/-- C7 witness: the spec's reference input lands inside the clamp
range. -/
theorem realMonthlyRateFromGross_range_witness :
    jInIcc (-99/100) 10 (realMonthlyRateFromGross (1/100) (15/100) (3/1000)) = true :=
  realMonthlyRateFromGross_range (1/100) (15/100) (3/1000)
    (fun hc => absurd hc.1 (by norm_num))
